import Mathlib

/-!
Verification development for the HomeStock backend's credential and token
lifecycle subsystem (`backend/app/dependencies/auth.py`,
`backend/app/crypto/keys.py`, `backend/app/api/routers/auth.py`,
`backend/app/api/services/auth_service.py`,
`backend/app/api/services/blacklist_cleanup.py`,
`backend/app/init/default_user.py`).

The embedding works over byte strings modelled as `List Char`.  JSON payloads
are serialized by `serObj` (mirroring `json.dumps(..., separators=(",", ":"))`
as used by python-jose) and parsed back by `jsonLoads` (mirroring
`json.loads`).  Base64url transport is elided: it is an injective bijection
between the wire segments and the byte strings modelled here, so equalities of
segments transfer verbatim.  Asymmetric signatures are modelled symbolically
(a signature records the signed message and the key-pair identifier; a
signature verifies exactly when it was produced over the same message by the
matching key), the standard idealization of EUF-CMA-secure schemes.
-/

/-- Byte strings (the contents of wire segments). -/
abbrev Bytes := List Char

/-- JSON values appearing in token claims: strings and (epoch-second) numbers. -/
inductive JVal where
  | vs (s : Bytes)
  | vn (n : Nat)
deriving DecidableEq, Repr

/-- A JSON object as serialized: a key-value list in emission order
(CPython dicts and `json.loads` both preserve insertion order). -/
abbrev JObj := List (Bytes × JVal)

/-- Numeric value of a decimal digit character. -/
def digitVal (c : Char) : Nat := c.toNat - 48

/-- Decimal digits, least significant first, with structural fuel so the
definition reduces in the kernel. -/
def natDigitsGo : Nat → Nat → Bytes
  | 0, _ => []
  | fuel + 1, n =>
    if n < 10 then [Nat.digitChar n]
    else Nat.digitChar (n % 10) :: natDigitsGo fuel (n / 10)

/-- Decimal digits of a natural number, least significant first. -/
def natDigitsAux (n : Nat) : Bytes := natDigitsGo (n + 1) n

/-- Decimal representation of a natural number, most significant first. -/
def natDigits (n : Nat) : Bytes := (natDigitsAux n).reverse

/-- Value of a most-significant-first digit string. -/
def digitsVal (ds : Bytes) : Nat := ds.foldl (fun a c => 10 * a + digitVal c) 0

/-- Serialization of a JSON value (strings are emitted between quotes,
numbers as decimal digit runs), as `json.dumps` does. -/
def serVal : JVal → Bytes
  | .vs s => '"' :: s ++ ['"']
  | .vn n => natDigits n

/-- Serialization of one `"key":value` member. -/
def serField (kv : Bytes × JVal) : Bytes :=
  '"' :: kv.1 ++ '"' :: ':' :: serVal kv.2

/-- Comma-separated member list, as `json.dumps(..., separators=(",", ":"))`. -/
def serFields : JObj → Bytes
  | [] => []
  | [kv] => serField kv
  | kv :: rest => serField kv ++ ',' :: serFields rest

/-- Serialization of a whole object between braces. -/
def serObj (o : JObj) : Bytes := '\x7b' :: serFields o ++ ['\x7d']

/-- Is this character not a double quote (the string-terminator test)? -/
def notQuote (c : Char) : Bool := c ≠ '"'

/-- Parse a quoted string literal, returning its contents and the rest. -/
def parseStr (cs : Bytes) : Option (Bytes × Bytes) :=
  match cs with
  | [] => none
  | c :: rest =>
    if c = '"' then
      match rest.dropWhile notQuote with
      | _ :: rest2 => some (rest.takeWhile notQuote, rest2)
      | [] => none
    else none

/-- Parse a decimal number literal. -/
def parseNum (cs : Bytes) : Option (Nat × Bytes) :=
  if cs.takeWhile Char.isDigit = [] then none
  else some (digitsVal (cs.takeWhile Char.isDigit), cs.dropWhile Char.isDigit)

/-- Parse a JSON value (string or number). -/
def parseVal (cs : Bytes) : Option (JVal × Bytes) :=
  match parseStr cs with
  | some (s, rest) => some (.vs s, rest)
  | none =>
    match parseNum cs with
    | some (n, rest) => some (.vn n, rest)
    | none => none

/-- Parse one `"key":value` member. -/
def parseField (cs : Bytes) : Option ((Bytes × JVal) × Bytes) :=
  match parseStr cs with
  | none => none
  | some (k, rest) =>
    match rest with
    | [] => none
    | c :: rest2 =>
      if c = ':' then (parseVal rest2).map (fun vr => ((k, vr.1), vr.2))
      else none

/-- Parse a comma-separated member list (fuel-indexed for termination). -/
def parseFieldList (fuel : Nat) (cs : Bytes) : Option (JObj × Bytes) :=
  match fuel with
  | 0 => none
  | fuel + 1 =>
    match parseField cs with
    | none => none
    | some (kv, rest) =>
      match rest with
      | [] => some ([kv], [])
      | c :: rest2 =>
        if c = ',' then
          match parseFieldList fuel rest2 with
          | some (kvs, r) => some (kv :: kvs, r)
          | none => none
        else some ([kv], c :: rest2)

/-- Parse one JSON object from the front of the input. -/
def parseObjBytes (cs : Bytes) : Option (JObj × Bytes) :=
  match cs with
  | [] => none
  | c :: rest =>
    if c = '\x7b' then
      match rest with
      | [] => none
      | d :: rest2 =>
        if d = '\x7d' then some ([], rest2)
        else
          match parseFieldList (rest.length + 1) rest with
          | some (o, r) =>
            match r with
            | r0 :: r1 => if r0 = '\x7d' then some (o, r1) else none
            | [] => none
          | none => none
    else none

/-- `json.loads`: parse an object and demand the input be fully consumed. -/
def jsonLoads (cs : Bytes) : Option JObj :=
  match parseObjBytes cs with
  | some (o, []) => some o
  | _ => none

/-- Well-formedness of a value for the round trip: string contents carry no
quote character (usernames are dash/underscore alphanumerics, the fixed
issuer and audience strings contain no quote). -/
def wfVal : JVal → Prop
  | .vs s => '"' ∉ s
  | .vn _ => True

/-- Well-formedness of an object: every key and value is quote-clean. -/
def wfObj (o : JObj) : Prop := ∀ kv ∈ o, '"' ∉ kv.1 ∧ wfVal kv.2

instance : DecidablePred wfVal := fun v => by
  unfold wfVal
  cases v <;> infer_instance

instance (o : JObj) : Decidable (wfObj o) := by
  unfold wfObj
  infer_instance

/-! ### Round trip of the canonical serialization -/

theorem takeWhile_append_of (p : Char → Bool) (xs : Bytes) (y : Char) (ys : Bytes)
    (hxs : ∀ x ∈ xs, p x = true) (hy : p y = false) :
    (xs ++ y :: ys).takeWhile p = xs ∧ (xs ++ y :: ys).dropWhile p = y :: ys := by
  induction xs with
  | nil => simp [List.takeWhile_cons, List.dropWhile_cons, hy]
  | cons a l ih =>
    have ha : p a = true := hxs a (by simp)
    have h2 := ih (fun x hx => hxs x (by simp [hx]))
    simp [List.takeWhile_cons, List.dropWhile_cons, ha, h2.1, h2.2]

theorem takeWhile_all (p : Char → Bool) (xs : Bytes) (h : ∀ x ∈ xs, p x = true) :
    xs.takeWhile p = xs ∧ xs.dropWhile p = [] := by
  induction xs with
  | nil => simp
  | cons a l ih =>
    have ha : p a = true := h a (by simp)
    have h2 := ih (fun x hx => h x (by simp [hx]))
    simp [List.takeWhile_cons, List.dropWhile_cons, ha, h2.1, h2.2]

theorem digitVal_digitChar : ∀ d : Nat, d < 10 → digitVal (Nat.digitChar d) = d := by decide

theorem isDigit_digitChar : ∀ d : Nat, d < 10 → (Nat.digitChar d).isDigit = true := by decide

/-- Value of a least-significant-first digit list (proof-side helper). -/
def valRev : Bytes → Nat
  | [] => 0
  | c :: cs => digitVal c + 10 * valRev cs

theorem valRev_natDigitsGo (fuel : Nat) : ∀ n, n < fuel → valRev (natDigitsGo fuel n) = n := by
  induction fuel with
  | zero => intro n h; omega
  | succ fuel ih =>
    intro n h
    rw [natDigitsGo]
    split
    · next h10 => simp [valRev, digitVal_digitChar n h10]
    · next h10 =>
      have hdiv : n / 10 < fuel := by
        have : n / 10 < n := Nat.div_lt_self (by omega) (by omega)
        omega
      have hmod : n % 10 < 10 := Nat.mod_lt _ (by omega)
      simp [valRev, ih _ hdiv, digitVal_digitChar (n % 10) hmod]
      omega

theorem valRev_natDigitsAux (n : Nat) : valRev (natDigitsAux n) = n :=
  valRev_natDigitsGo (n + 1) n (by omega)

theorem natDigitsGo_digits (fuel : Nat) :
    ∀ n, ∀ c ∈ natDigitsGo fuel n, c.isDigit = true := by
  induction fuel with
  | zero => intro n c hc; simp [natDigitsGo] at hc
  | succ fuel ih =>
    intro n c hc
    rw [natDigitsGo] at hc
    split at hc
    · next h10 =>
      simp at hc
      subst hc
      exact isDigit_digitChar n h10
    · next h10 =>
      simp at hc
      rcases hc with hc | hc
      · subst hc
        exact isDigit_digitChar _ (Nat.mod_lt _ (by omega))
      · exact ih (n / 10) c hc

theorem natDigitsAux_digits (n : Nat) : ∀ c ∈ natDigitsAux n, c.isDigit = true :=
  natDigitsGo_digits (n + 1) n

theorem natDigitsAux_ne_nil (n : Nat) : natDigitsAux n ≠ [] := by
  rw [natDigitsAux, natDigitsGo]
  split <;> simp

theorem natDigits_digits (n : Nat) : ∀ c ∈ natDigits n, c.isDigit = true := by
  intro c hc
  exact natDigitsAux_digits n c (List.mem_reverse.mp hc)

theorem natDigits_ne_nil (n : Nat) : natDigits n ≠ [] := by
  simp [natDigits, natDigitsAux_ne_nil n]

theorem digitsVal_append_singleton (ds : Bytes) (c : Char) :
    digitsVal (ds ++ [c]) = 10 * digitsVal ds + digitVal c := by
  simp [digitsVal, List.foldl_append]

theorem digitsVal_reverse (ds : Bytes) : digitsVal ds.reverse = valRev ds := by
  induction ds with
  | nil => rfl
  | cons c cs ih =>
    rw [List.reverse_cons, digitsVal_append_singleton, ih, valRev]
    ring

theorem digitsVal_natDigits (n : Nat) : digitsVal (natDigits n) = n := by
  rw [natDigits, digitsVal_reverse, valRev_natDigitsAux]

/-- The input that follows a serialized number must not begin with a digit;
inside a serialized object it begins with a comma or a closing brace. -/
def sepOk (rest : Bytes) : Prop := ∀ c, rest.head? = some c → c.isDigit = false

theorem sepOk_nil : sepOk [] := by
  intro c hc
  simp at hc

theorem sepOk_cons (c : Char) (t : Bytes) (h : c.isDigit = false) : sepOk (c :: t) := by
  intro d hd
  simp at hd
  subst hd
  exact h

theorem parseNum_ser (n : Nat) (rest : Bytes) (hrest : sepOk rest) :
    parseNum (natDigits n ++ rest) = some (n, rest) := by
  have htake : (natDigits n ++ rest).takeWhile Char.isDigit = natDigits n ∧
      (natDigits n ++ rest).dropWhile Char.isDigit = rest := by
    cases rest with
    | nil =>
      simpa using takeWhile_all Char.isDigit (natDigits n) (natDigits_digits n)
    | cons y t =>
      exact takeWhile_append_of Char.isDigit (natDigits n) y t (natDigits_digits n)
        (hrest y rfl)
  rw [parseNum, htake.1, htake.2, if_neg (natDigits_ne_nil n), digitsVal_natDigits]

theorem notQuote_of_mem (s : Bytes) (hs : '"' ∉ s) : ∀ x ∈ s, notQuote x = true := by
  intro x hx
  simp [notQuote]
  intro he
  exact hs (he ▸ hx)

theorem parseStr_ser (s : Bytes) (rest : Bytes) (hs : '"' ∉ s) :
    parseStr ('"' :: (s ++ '"' :: rest)) = some (s, rest) := by
  have hq : notQuote '"' = false := by simp [notQuote]
  have h := takeWhile_append_of notQuote s '"' rest (notQuote_of_mem s hs) hq
  simp [parseStr, h.1, h.2]

theorem parseStr_not_quote (c : Char) (cs : Bytes) (h : c ≠ '"') :
    parseStr (c :: cs) = none := by
  simp [parseStr, h]

theorem isDigit_ne_quote (c : Char) (h : c.isDigit = true) : c ≠ '"' := by
  intro he
  subst he
  exact absurd h (by decide)

theorem parseVal_ser (v : JVal) (rest : Bytes) (hv : wfVal v) (hrest : sepOk rest) :
    parseVal (serVal v ++ rest) = some (v, rest) := by
  cases v with
  | vs s =>
    have : serVal (JVal.vs s) ++ rest = '"' :: (s ++ '"' :: rest) := by
      simp [serVal]
    rw [this, parseVal, parseStr_ser s rest hv]
  | vn n =>
    have hne := natDigits_ne_nil n
    rcases hd : natDigits n with _ | ⟨d, t⟩
    · exact absurd hd hne
    · have hdig : d.isDigit = true := natDigits_digits n d (by rw [hd]; simp)
      have hstr : parseStr (serVal (JVal.vn n) ++ rest) = none := by
        simp only [serVal, hd, List.cons_append]
        exact parseStr_not_quote d (t ++ rest) (isDigit_ne_quote d hdig)
      rw [parseVal, hstr]
      have : serVal (JVal.vn n) ++ rest = natDigits n ++ rest := rfl
      rw [this, parseNum_ser n rest hrest]

theorem parseField_ser (kv : Bytes × JVal) (rest : Bytes)
    (hk : '"' ∉ kv.1) (hv : wfVal kv.2) (hrest : sepOk rest) :
    parseField (serField kv ++ rest) = some (kv, rest) := by
  have hshape : serField kv ++ rest = '"' :: (kv.1 ++ '"' :: (':' :: (serVal kv.2 ++ rest))) := by
    simp [serField]
  rw [hshape, parseField, parseStr_ser kv.1 _ hk]
  simp [parseVal_ser kv.2 rest hv hrest]

theorem parseFieldList_ser (o : JObj) (t : Bytes) (fuel : Nat)
    (ho : o ≠ []) (hwf : wfObj o) (hfuel : o.length ≤ fuel) :
    parseFieldList fuel (serFields o ++ '\x7d' :: t) = some (o, '\x7d' :: t) := by
  induction o generalizing fuel t with
  | nil => exact absurd rfl ho
  | cons kv rest ih =>
    cases fuel with
    | zero => simp at hfuel
    | succ fuel =>
      have hkv := hwf kv (by simp)
      cases rest with
      | nil =>
        have hpf := parseField_ser kv ('\x7d' :: t) hkv.1 hkv.2
          (sepOk_cons _ _ (by decide))
        simp only [serFields, parseFieldList, hpf]
        simp
      | cons kv2 rest2 =>
        have hser : serFields (kv :: kv2 :: rest2) ++ '\x7d' :: t =
            serField kv ++ ',' :: (serFields (kv2 :: rest2) ++ '\x7d' :: t) := by
          simp [serFields]
        have hpf := parseField_ser kv (',' :: (serFields (kv2 :: rest2) ++ '\x7d' :: t))
          hkv.1 hkv.2 (sepOk_cons _ _ (by decide))
        have hih := ih t fuel (by simp)
          (fun x hx => hwf x (List.mem_cons_of_mem _ hx))
          (by simp at hfuel ⊢; omega)
        rw [hser, parseFieldList, hpf]
        simp [hih]

theorem serFields_length (o : JObj) : o.length ≤ (serFields o).length := by
  induction o with
  | nil => simp [serFields]
  | cons kv rest ih =>
    cases rest with
    | nil => simp [serFields, serField]
    | cons kv2 r2 =>
      have : serFields (kv :: kv2 :: r2) = serField kv ++ ',' :: serFields (kv2 :: r2) := rfl
      rw [this]
      simp only [List.length_cons, List.length_append, serField]
      simp at ih ⊢
      omega

theorem serFields_cons (kv : Bytes × JVal) (rest : JObj) :
    ∃ tl, serFields (kv :: rest) = '"' :: tl := by
  cases rest with
  | nil => exact ⟨kv.1 ++ '"' :: ':' :: serVal kv.2, by simp [serFields, serField]⟩
  | cons kv2 r2 =>
    exact ⟨kv.1 ++ '"' :: ':' :: (serVal kv.2 ++ ',' :: serFields (kv2 :: r2)),
      by simp [serFields, serField]⟩

theorem jsonLoads_serObj (o : JObj) (h : wfObj o) : jsonLoads (serObj o) = some o := by
  cases o with
  | nil => rfl
  | cons kv rest =>
    obtain ⟨tl, htl⟩ := serFields_cons kv rest
    have hshape : serFields (kv :: rest) ++ ['\x7d'] = '"' :: (tl ++ ['\x7d']) := by
      rw [htl]
      simp
    have hfl := parseFieldList_ser (kv :: rest) []
      ((serFields (kv :: rest) ++ ['\x7d']).length + 1) (by simp) h
      (by
        have := serFields_length (kv :: rest)
        simp only [List.length_append]
        omega)
    rw [jsonLoads, serObj]
    simp only [List.cons_append]
    rw [parseObjBytes.eq_def]
    simp only [if_pos rfl]
    rw [hshape]
    simp only [if_neg (by decide : ¬ ('"' : Char) = '\x7d')]
    rw [← hshape, hfl]
    simp

/-! ### Key material and signatures (`backend/app/crypto/keys.py`)

The process-scoped singleton holds one RSA-2048 pair and one Dilithium3 pair.
Key pairs are identified symbolically by a `Nat`; a signature records the
signed message and the identifier of the pair that produced it, and verifies
exactly against that pair and message (the EUF-CMA idealization). -/

/-- Identifier of the singleton's RSA-2048 key pair. -/
def rsaKeyId : Nat := 0

/-- Identifier of the singleton's Dilithium3 key pair. -/
def dilithiumKeyId : Nat := 1

/-- Modelled from the spec: identifier of the elliptic-curve (Ed25519) key
pair whose accessor `get_ed25519_public_key` the logout route imports from
`app.crypto.keys`, where it is absent from the sources; §4.2 of the spec lists
a "single modern elliptic-curve scheme" mode with public-key accessors.  No
key of this pair ever signs anything in the embedded code. -/
def ed25519KeyId : Nat := 2

/-- A Dilithium3 signature: the signed message together with the signing
key-pair identifier. -/
structure DilSig where
  msg : Bytes
  key : Nat
deriving DecidableEq, Repr

/-- `keys.dilithium_sign`: sign a message with the singleton's Dilithium3 key. -/
def dilithium_sign (message : Bytes) : DilSig := ⟨message, dilithiumKeyId⟩

/-- `keys.dilithium_verify`: a signature verifies iff it was produced over the
same message by the singleton's Dilithium3 key. -/
def dilithium_verify (message : Bytes) (signature : DilSig) : Bool :=
  signature.key == dilithiumKeyId && signature.msg == message

/-- The `pqc` block carried in a hybrid JWT header:
`{"alg": ..., "sig": ...}`; `sig = none` models a missing or empty `sig`
field (the code treats a falsy `sig` as absent). -/
structure PqcHeader where
  alg : String
  sig : Option DilSig
deriving DecidableEq, Repr

/-- A JWT header: `{"alg": ..., "typ": ..., "pqc": ...?}`. -/
structure Header where
  alg : String
  typ : String
  pqc : Option PqcHeader
deriving DecidableEq, Repr

/-- An RSA (RS256) signature over a `header.payload` signing input: records
the header, the payload segment bytes and the signing key-pair identifier. -/
structure RsaSig where
  hdr : Header
  pl : Bytes
  key : Nat
deriving DecidableEq, Repr

/-- A structurally well-formed wire token: the three dot-separated segments
(header, payload, primary signature) after base64url decoding. -/
structure WireToken where
  header : Header
  payloadSeg : Bytes
  sig : RsaSig
deriving DecidableEq, Repr

/-- A token string as handed to the JWT library: either structurally
malformed (the library raises on it) or a well-formed three-segment token. -/
inductive JwtInput where
  | malformed
  | wf (t : WireToken)
deriving DecidableEq, Repr

/-- The in-memory key material of `HybridKeyPair` (PEM / raw bytes). -/
structure HybridKeyPair where
  rsa_private_key_pem : Bytes
  rsa_public_key_pem : Bytes
  dilithium_private_key : Bytes
  dilithium_public_key : Bytes
deriving DecidableEq, Repr

/-- `keys.get_rsa_private_key` (module-level public API, keys.py:177). -/
def get_rsa_private_key (kp : HybridKeyPair) : Bytes := kp.rsa_private_key_pem

/-- `keys.get_rsa_public_key` (module-level public API, keys.py:182). -/
def get_rsa_public_key (kp : HybridKeyPair) : Bytes := kp.rsa_public_key_pem

/-- `keys.get_dilithium_public_key` (module-level public API, keys.py:187). -/
def get_dilithium_public_key (kp : HybridKeyPair) : Bytes := kp.dilithium_public_key

/-- The key-returning operations `keys.py` exposes at module level
(keys.py:176-199; the two signature operations return signatures, not keys,
and are modelled separately by `dilithium_sign` and `dilithium_verify`). -/
def exposedKeyAccessors : List (HybridKeyPair → Bytes) :=
  [get_rsa_private_key, get_rsa_public_key, get_dilithium_public_key]

/-! ### Token issuance (`auth.py: create_access_token`) -/

/-- `ALGORITHM = "RS256"` (auth.py:49). -/
def ALGORITHM : String := "RS256"

/-- `PQC_ALGORITHM = "Dilithium3"` (auth.py:50). -/
def PQC_ALGORITHM : String := "Dilithium3"

/-- `ACCESS_TOKEN_EXPIRE_MINUTES = 30` (auth.py:51). -/
def ACCESS_TOKEN_EXPIRE_MINUTES : Nat := 30

/-- The fixed issuer identifier `"homestock-api"`. -/
def issuerId : Bytes := "homestock-api".toList

/-- The fixed audience identifier `"homestock-client"`. -/
def audienceId : Bytes := "homestock-client".toList

def subKey : Bytes := "sub".toList
def expKey : Bytes := "exp".toList
def iatKey : Bytes := "iat".toList
def issKey : Bytes := "iss".toList
def audKey : Bytes := "aud".toList
def jtiKey : Bytes := "jti".toList

/-- `dict.get`: first binding of a key in an object. -/
def jget (k : Bytes) : JObj → Option JVal
  | [] => none
  | kv :: rest => if kv.1 == k then some kv.2 else jget k rest

/-- One step of Python `dict.update`: replace an existing binding in place,
else append the new binding. -/
def setField (o : JObj) (k : Bytes) (v : JVal) : JObj :=
  if o.any (fun kv => kv.1 == k) then
    o.map (fun kv => if kv.1 == k then (k, v) else kv)
  else o ++ [(k, v)]

/-- Python `dict.update` over a list of bindings. -/
def dictUpdate (o : JObj) : List (Bytes × JVal) → JObj
  | [] => o
  | kv :: rest => dictUpdate (setField o kv.1 kv.2) rest

/-- The claim set `to_encode` built by `create_access_token` (auth.py:78-91):
the caller's `data` updated with `exp`, `iat`, `iss`, `aud`.  No `jti` is
ever added. -/
def tokenClaimSet (data : JObj) (now : Nat) (expires_delta : Option Nat) : JObj :=
  let expire := now + expires_delta.getD (ACCESS_TOKEN_EXPIRE_MINUTES * 60)
  dictUpdate data
    [(expKey, .vn expire), (iatKey, .vn now), (issKey, .vs issuerId), (audKey, .vs audienceId)]

/-- The basic JOSE header `{"alg":"RS256","typ":"JWT"}` emitted by
`jwt.encode` when no extra headers are supplied. -/
def basicHeaderObj : JObj :=
  [("alg".toList, .vs "RS256".toList), ("typ".toList, .vs "JWT".toList)]

/-- Serialized basic header segment. -/
def serHeaderBasic : Bytes := serObj basicHeaderObj

/-- `jose.jwt.encode(claims, key, algorithm="RS256", headers=...)`: serialize
the claims deterministically and sign `header.payload` with the RSA key. -/
def joseEncode (claims : JObj) (signKey : Nat) (pqcBlock : Option PqcHeader) : WireToken :=
  let hdr : Header := ⟨ALGORITHM, "JWT", pqcBlock⟩
  let pl := serObj claims
  ⟨hdr, pl, ⟨hdr, pl, signKey⟩⟩

/-- The `header.payload` bytes of the basic (pqc-free) JWT for a claim set:
the input over which the Dilithium3 signature is computed (auth.py:95-111). -/
def issueSigningInput (data : JObj) (now : Nat) (expires_delta : Option Nat) : Bytes :=
  serHeaderBasic ++ '.' :: serObj (tokenClaimSet data now expires_delta)

/-- `create_access_token(data, expires_delta)` (auth.py:64-134): build the
claim set, encode a basic JWT, Dilithium3-sign its `header.payload` bytes,
then emit the final RS256-signed JWT whose header carries the `pqc` block. -/
def create_access_token (data : JObj) (now : Nat) (expires_delta : Option Nat) : WireToken :=
  let to_encode := tokenClaimSet data now expires_delta
  let basic_jwt := joseEncode to_encode rsaKeyId none
  let message := serHeaderBasic ++ '.' :: basic_jwt.payloadSeg
  let dilithium_signature := dilithium_sign message
  joseEncode to_encode rsaKeyId (some ⟨PQC_ALGORITHM, some dilithium_signature⟩)

/-! ### Users and passwords (`auth.py`, `auth_service.py`) -/

/-- A row of the `homestock.users` table. -/
structure UserRec where
  id : Nat
  username : Bytes
  hashed_password : Bytes
deriving DecidableEq, Repr

/-- The users table. -/
abbrev Db := List UserRec

/-- `get_password_hash` (auth.py:59): Argon2id, idealized as an injective
digest function (verification succeeds exactly on the hashed password). -/
def get_password_hash (password : Bytes) : Bytes := '$' :: password

/-- `verify_password` (auth.py:54). -/
def verify_password (plain_password hashed_password : Bytes) : Bool :=
  hashed_password == get_password_hash plain_password

/-- `get_user_by_username` (auth.py:137): first row matching the username. -/
def get_user_by_username (db : Db) (username : Bytes) : Option UserRec :=
  db.find? (fun u => u.username == username)

/-! ### Token verification (`auth.py: get_current_user`) -/

/-- `fastapi.HTTPException` as raised by the verification path (all carry the
`WWW-Authenticate: Bearer` header). -/
structure HTTPEx where
  status : Nat
  detail : String
deriving DecidableEq, Repr

/-- The shared `credentials_exception` (auth.py:182-186). -/
def credentialsException : HTTPEx := ⟨401, "Could not validate credentials"⟩

/-- The distinct exception raised when the Dilithium3 signature fails
(auth.py:287-291). -/
def pqcFailedException : HTTPEx := ⟨401, "Post-quantum signature verification failed"⟩

/-- The distinct exception raised when the `pqc` header block is absent
(auth.py:296-301). -/
def pqcMissingException : HTTPEx := ⟨401, "Token missing post-quantum signature"⟩

/-- The internal failure kinds of `jose.jwt.decode`; `get_current_user` maps
every one of them to `credentialsException`. -/
inductive JoseErr where
  | badAlg
  | badSig
  | badPayload
  | badAud
  | badIss
  | expired
  | badSub
deriving DecidableEq, Repr

/-- jose `_validate_aud`: skipped when the claim is absent; a non-string
claim or a mismatch raises. -/
def audOk (claims : JObj) (audience : Bytes) : Bool :=
  match jget audKey claims with
  | none => true
  | some (.vs a) => a == audience
  | some (.vn _) => false

/-- jose `_validate_iss`: skipped when the claim is absent. -/
def issOk (claims : JObj) (issuer : Bytes) : Bool :=
  match jget issKey claims with
  | none => true
  | some (.vs i) => i == issuer
  | some (.vn _) => false

/-- jose `_validate_exp`: skipped when absent; raises iff `exp < now`. -/
def expOk (claims : JObj) (now : Nat) : Bool :=
  match jget expKey claims with
  | none => true
  | some (.vn e) => now ≤ e
  | some (.vs _) => false

/-- jose `_validate_sub`: when present, `sub` must be a string. -/
def subOk (claims : JObj) : Bool :=
  match jget subKey claims with
  | none => true
  | some (.vs _) => true
  | some (.vn _) => false

/-- `jose.jwt.decode(token, key, algorithms=["RS256"], issuer=...,
audience=...)` (auth.py:203-209): check the algorithm, verify the RS256
signature over the token's own `header.payload`, parse the claims and run the
registered-claim validations. -/
def joseDecode (t : WireToken) (pubKey : Nat) (issuer audience : Bytes) (now : Nat) :
    Except JoseErr JObj :=
  if t.header.alg ≠ ALGORITHM then .error .badAlg
  else if t.sig ≠ (⟨t.header, t.payloadSeg, pubKey⟩ : RsaSig) then .error .badSig
  else
    match jsonLoads t.payloadSeg with
    | none => .error .badPayload
    | some claims =>
      if ¬ audOk claims audience then .error .badAud
      else if ¬ issOk claims issuer then .error .badIss
      else if ¬ expOk claims now then .error .expired
      else if ¬ subOk claims then .error .badSub
      else .ok claims

/-- The `header.payload` bytes the verifier reconstructs from a token's
decoded claims by re-encoding them under the basic header (auth.py:260-282). -/
def reEncodeMsg (payload_data : JObj) : Bytes :=
  serHeaderBasic ++ '.' :: serObj payload_data

/-- The canonical secondary-signature input reconstructed from a wire token,
`none` when the payload segment does not decode. -/
def reconstructMsg (t : WireToken) : Option Bytes :=
  (jsonLoads t.payloadSeg).map reEncodeMsg

/-- The Dilithium3 branch of `get_current_user` (auth.py:221-301): require
the `pqc` header block, check its algorithm tag, require a non-empty `sig`,
decode the payload, re-encode it under the basic header and verify the
Dilithium3 signature over those bytes. -/
def checkPqc (t : WireToken) : Except HTTPEx Unit :=
  match t.header.pqc with
  | some pqc_data =>
    if pqc_data.alg ≠ PQC_ALGORITHM then .error credentialsException
    else
      match pqc_data.sig with
      | none => .error credentialsException
      | some dilithium_signature =>
        match jsonLoads t.payloadSeg with
        | none => .error credentialsException
        | some payload_data =>
          if dilithium_verify (reEncodeMsg payload_data) dilithium_signature then .ok ()
          else .error pqcFailedException
  | none => .error pqcMissingException

/-- `get_current_user(access_token, db)` (auth.py:169-318): reject when the
cookie is absent or the token malformed; verify RS256 with fixed issuer and
audience via `joseDecode`; require a string `sub`; run the Dilithium3 branch;
resolve the user row.  Every failure raises an `HTTPEx`.  The function takes
no revocation-ledger argument because the source never consults one. -/
def get_current_user (access_token : Option JwtInput) (db : Db) (now : Nat) :
    Except HTTPEx UserRec :=
  match access_token with
  | none => .error credentialsException
  | some .malformed => .error credentialsException
  | some (.wf t) =>
    match joseDecode t rsaKeyId issuerId audienceId now with
    | .error _ => .error credentialsException
    | .ok payload =>
      match jget subKey payload with
      | some (.vs username) =>
        match checkPqc t with
        | .error e => .error e
        | .ok _ =>
          match get_user_by_username db username with
          | none => .error credentialsException
          | some user => .ok user
      | _ => .error credentialsException

deriving instance DecidableEq for Except

/-! ### Revocation ledger (`jwt_blacklist` table) and logout
(`routers/auth.py: logout`, `blacklist_cleanup.py`) -/

/-- A row of the `homestock.jwt_blacklist` table. -/
structure BlacklistEntry where
  jti : Bytes
  username : Bytes
  expires_at : Nat
deriving DecidableEq, Repr

/-- The revocation ledger. -/
abbrev Blacklist := List BlacklistEntry

/-- Modelled from the spec: `blacklist_token` (imported by the logout route
from `app.dependencies.auth`, where it is absent from the sources).  §4.5:
`add(unique_id, subject, expiry)` is an idempotent insert keyed by the jti. -/
def blacklist_token (bl : Blacklist) (jti username : Bytes) (expires_at : Nat) : Blacklist :=
  if bl.any (fun e => e.jti == jti) then bl else bl ++ [⟨jti, username, expires_at⟩]

/-- `PyJWT jwt.decode(token, key, algorithms=["EdDSA"], issuer=...,
audience=...)` as called inside the logout route (routers/auth.py:171-177):
only EdDSA-signed tokens pass; the tokens this service issues are RS256-signed
by the RSA pair, so this decode fails on every one of them. -/
def pyjwtDecodeEd (t : WireToken) (pubKey : Nat) (issuer audience : Bytes) (now : Nat) :
    Except JoseErr JObj :=
  if t.header.alg ≠ "EdDSA" then .error .badAlg
  else if t.sig ≠ (⟨t.header, t.payloadSeg, pubKey⟩ : RsaSig) then .error .badSig
  else
    match jsonLoads t.payloadSeg with
    | none => .error .badPayload
    | some claims =>
      if ¬ audOk claims audience then .error .badAud
      else if ¬ issOk claims issuer then .error .badIss
      else if ¬ expOk claims now then .error .expired
      else .ok claims

/-- Outcome of the logout endpoint: the ledger afterwards, whether the
`access_token` cookie was deleted, and the HTTP response. -/
structure LogoutResult where
  blacklist : Blacklist
  cookieCleared : Bool
  response : Except HTTPEx String
deriving DecidableEq, Repr

/-- `logout` (routers/auth.py:138-199).  The route depends on `require_auth`
(= `get_current_user` on the cookie), so an invalid token is rejected with
its 401 before the body runs.  The body re-reads the token (cookie first,
bearer header as fallback), tries to decode it with the Ed25519 key under
EdDSA, and on success blacklists `jti`/`exp` when both are truthy; every
exception inside that block is swallowed (`except ... pass`).  The cookie is
then deleted and a success message returned.  `ledgerWriteOk = false` models
the blacklist insert raising; the raised write is rolled back and swallowed. -/
def logoutEndpoint (cookie : Option JwtInput) (authHeader : Option JwtInput)
    (db : Db) (bl : Blacklist) (now : Nat) (ledgerWriteOk : Bool) : LogoutResult :=
  match get_current_user cookie db now with
  | .error e => ⟨bl, false, .error e⟩
  | .ok current_user =>
    let access_token := match cookie with
      | some j => some j
      | none => authHeader
    let bl2 := match access_token with
      | none => bl
      | some .malformed => bl
      | some (.wf t) =>
        match pyjwtDecodeEd t ed25519KeyId issuerId audienceId now with
        | .error _ => bl
        | .ok payload =>
          match jget jtiKey payload, jget expKey payload with
          | some (.vs jti), some (.vn e) =>
            if jti.isEmpty || e == 0 then bl
            else if ledgerWriteOk then blacklist_token bl jti current_user.username e
            else bl
          | _, _ => bl
    ⟨bl2, true, .ok "Logged out successfully - token has been revoked"⟩

/-- Modelled from the spec: the stored procedure
`homestock.cleanup_expired_jwt_tokens()` called by the wrapper (its SQL body
is not among the sources).  Per §4.5 and §8 it deletes every entry whose
expiry has passed (`expiry <= now`) and leaves the rest untouched. -/
def cleanup_expired_jwt_tokens (bl : Blacklist) (now : Nat) : Blacklist :=
  bl.filter (fun e => now < e.expires_at)

/-- `cleanup_expired_tokens(db)` (blacklist_cleanup.py:14-42): run the stored
procedure, then return `deleted_count`, which the code hard-codes to `0`
(line 34) no matter how many rows were deleted. -/
def cleanup_expired_tokens (bl : Blacklist) (now : Nat) : Blacklist × Nat :=
  let bl2 := cleanup_expired_jwt_tokens bl now
  (bl2, 0)

/-- `get_blacklist_stats(db)` (blacklist_cleanup.py:45-71). -/
def get_blacklist_stats (bl : Blacklist) (now : Nat) : Nat × Nat × Nat :=
  let total := bl.length
  let expired := (bl.filter (fun e => e.expires_at < now)).length
  (total, expired, total - expired)

/-! ### Account services (`auth_service.py`, `routers/auth.py`,
`init/default_user.py`) -/

/-- The body of a `PATCH /auth/me/password` request. -/
structure PasswordChange where
  current_password : Bytes
  new_password : Bytes
deriving DecidableEq, Repr

/-- The success payload of `change_password`. -/
structure ChangeResult where
  message : String
  invalidate_sessions : Bool
deriving DecidableEq, Repr

/-- `auth_service.change_password(db, user_id, password_data)`
(auth_service.py:91-155): fetch by id, re-verify the current password,
reject a new password equal to the current one, otherwise rehash and persist.
Rejections roll back, leaving the table unchanged. -/
def change_password (db : Db) (user_id : Nat) (password_data : PasswordChange) :
    Db × Except HTTPEx ChangeResult :=
  match db.find? (fun u => u.id == user_id) with
  | none => (db, .error ⟨404, "User not found"⟩)
  | some user =>
    if ¬ verify_password password_data.current_password user.hashed_password then
      (db, .error ⟨401, "Current password is incorrect"⟩)
    else if verify_password password_data.new_password user.hashed_password then
      (db, .error ⟨400, "New password must be different from current password"⟩)
    else
      (db.map (fun u =>
        if u.id == user_id then
          ⟨u.id, u.username, get_password_hash password_data.new_password⟩
        else u),
       .ok ⟨"Password changed successfully", true⟩)

/-- The body of a `POST /auth/register` request. -/
structure UserCreate where
  username : Bytes
  password : Bytes
deriving DecidableEq, Repr

/-- The response model without the password. -/
structure UserOut where
  id : Nat
  username : Bytes
deriving DecidableEq, Repr

/-- Fresh autoincrement id for an insert. -/
def nextId (db : Db) : Nat := db.foldl (fun m u => max m u.id) 0 + 1

/-- `auth_service.register_user(db, user_data)` (auth_service.py:16-59):
hash the password and insert; a uniqueness violation rolls back and maps to
409 Conflict. -/
def register_user (db : Db) (user_data : UserCreate) : Db × Except HTTPEx UserOut :=
  if db.any (fun u => u.username == user_data.username) then
    (db, .error ⟨409, "Username already exists"⟩)
  else
    let new_user : UserRec := ⟨nextId db, user_data.username, get_password_hash user_data.password⟩
    (db ++ [new_user], .ok ⟨new_user.id, new_user.username⟩)

/-- `POST /auth/register` (routers/auth.py:17-39): the route declares
`current_user: dict = Depends(require_auth)`, so FastAPI runs
`get_current_user` on the request's cookie before the handler; its 401
aborts the request and the handler (hence the insert) never runs. -/
def registerEndpoint (cookie : Option JwtInput) (db : Db) (now : Nat)
    (user_data : UserCreate) : Db × Except HTTPEx UserOut :=
  match get_current_user cookie db now with
  | .error e => (db, .error e)
  | .ok _ => register_user db user_data

/-- `DEFAULT_USERNAME = "admin"` (default_user.py:23). -/
def DEFAULT_USERNAME : Bytes := "admin".toList

/-- `initialize_default_user()` (default_user.py:46-100): on startup, if any
user row exists do nothing; otherwise insert the `admin` user with the hash
of a generated random password (the generator's output is a parameter here). -/
def initialize_default_user (db : Db) (generated_password : Bytes) : Db :=
  match db with
  | [] => [⟨nextId [], DEFAULT_USERNAME, get_password_hash generated_password⟩]
  | _ => db

/-! ### Fixtures for concrete evaluations -/

/-- A demonstration username. -/
def aliceName : Bytes := "alice".toList

/-- A demonstration password. -/
def alicePw : Bytes := "wonderland1".toList

/-- The stored user row for `alice`. -/
def aliceRec : UserRec := ⟨1, aliceName, get_password_hash alicePw⟩

/-- A users table holding exactly `alice`. -/
def aliceDb : Db := [aliceRec]

/-- A token issued for `alice` at epoch 0 with the default 30-minute TTL,
exactly as `login_user` issues it. -/
def tokAlice : WireToken := create_access_token [(subKey, .vs aliceName)] 0 none

/-- A token whose claims and RS256 signature are valid but whose header
carries no `pqc` block. -/
def tokNoPqc : WireToken :=
  joseEncode (tokenClaimSet [(subKey, .vs aliceName)] 0 none) rsaKeyId none

/-- Concrete key material for the exposure counterexample. -/
def demoKeyPair : HybridKeyPair :=
  ⟨"rsa-private-pem".toList, "rsa-public-pem".toList,
   "dilithium-private".toList, "dilithium-public".toList⟩

/-! ### Helper lemmas -/


theorem checkPqc_error_cases (t : WireToken) (e : HTTPEx) (h : checkPqc t = .error e) :
    e = credentialsException ∨ e = pqcFailedException ∨ e = pqcMissingException := by
  unfold checkPqc at h
  split at h
  · split at h
    · exact Or.inl (Except.error.inj h).symm
    · split at h
      · exact Or.inl (Except.error.inj h).symm
      · split at h
        · exact Or.inl (Except.error.inj h).symm
        · split at h
          · cases h
          · exact Or.inr (Or.inl (Except.error.inj h).symm)
  · exact Or.inr (Or.inr (Except.error.inj h).symm)

theorem gcu_error_cases (cookie : Option JwtInput) (db : Db) (now : Nat) (e : HTTPEx)
    (h : get_current_user cookie db now = .error e) :
    e = credentialsException ∨ e = pqcFailedException ∨ e = pqcMissingException := by
  unfold get_current_user at h
  split at h
  · exact Or.inl (Except.error.inj h).symm
  · exact Or.inl (Except.error.inj h).symm
  · split at h
    · exact Or.inl (Except.error.inj h).symm
    · split at h
      · split at h
        · next e2 heq => exact (Except.error.inj h) ▸ checkPqc_error_cases _ e2 heq
        · split at h
          · exact Or.inl (Except.error.inj h).symm
          · cases h
      · exact Or.inl (Except.error.inj h).symm

theorem tokenClaimSet_sub (u : Bytes) (now : Nat) (d : Option Nat) :
    tokenClaimSet [(subKey, .vs u)] now d =
      [(subKey, .vs u), (expKey, .vn (now + d.getD 1800)), (iatKey, .vn now),
       (issKey, .vs issuerId), (audKey, .vs audienceId)] := rfl

theorem wfObj_tokenClaimSet (u : Bytes) (now : Nat) (d : Option Nat) (hu : '"' ∉ u) :
    wfObj (tokenClaimSet [(subKey, .vs u)] now d) := by
  rw [tokenClaimSet_sub]
  intro kv hkv
  simp only [List.mem_cons, List.not_mem_nil, or_false] at hkv
  rcases hkv with h | h | h | h | h <;> subst h
  · exact ⟨(by decide : '"' ∉ subKey), hu⟩
  · exact ⟨(by decide : '"' ∉ expKey), trivial⟩
  · exact ⟨(by decide : '"' ∉ iatKey), trivial⟩
  · exact ⟨(by decide : '"' ∉ issKey), (by decide : wfVal (JVal.vs issuerId))⟩
  · exact ⟨(by decide : '"' ∉ audKey), (by decide : wfVal (JVal.vs audienceId))⟩

theorem checkPqc_none (t : WireToken) (hp : t.header.pqc = none) :
    checkPqc t = .error pqcMissingException := by
  unfold checkPqc
  rw [hp]

theorem checkPqc_some (t : WireToken) (p : PqcHeader) (hp : t.header.pqc = some p) :
    checkPqc t =
      (if p.alg ≠ PQC_ALGORITHM then .error credentialsException
       else
         match p.sig with
         | none => .error credentialsException
         | some dilithium_signature =>
           match jsonLoads t.payloadSeg with
           | none => .error credentialsException
           | some payload_data =>
             if dilithium_verify (reEncodeMsg payload_data) dilithium_signature then .ok ()
             else .error pqcFailedException) := by
  unfold checkPqc
  rw [hp]

theorem checkPqc_fails (t : WireToken)
    (h : t.header.pqc = none ∨ ∃ p, t.header.pqc = some p ∧
      ∀ m s, reconstructMsg t = some m → p.sig = some s → dilithium_verify m s = false) :
    ∃ e, checkPqc t = .error e := by
  rcases h with hp | ⟨p, hp, hver⟩
  · exact ⟨pqcMissingException, checkPqc_none t hp⟩
  · rw [checkPqc_some t p hp]
    split
    · exact ⟨credentialsException, rfl⟩
    · cases hsig : p.sig with
      | none => exact ⟨credentialsException, rfl⟩
      | some s =>
        cases hj : jsonLoads t.payloadSeg with
        | none => exact ⟨credentialsException, rfl⟩
        | some o =>
          have hfalse : dilithium_verify (reEncodeMsg o) s = false :=
            hver (reEncodeMsg o) s (by rw [reconstructMsg, hj]; rfl) hsig
          exact ⟨pqcFailedException, by simp [hfalse]⟩

/-! ### Reduction equations for endpoint functions -/

theorem gcu_wf (t : WireToken) (db : Db) (now : Nat) :
    get_current_user (some (.wf t)) db now =
      (match joseDecode t rsaKeyId issuerId audienceId now with
       | .error _ => .error credentialsException
       | .ok payload =>
         match jget subKey payload with
         | some (.vs username) =>
           match checkPqc t with
           | .error e => .error e
           | .ok _ =>
             match get_user_by_username db username with
             | none => .error credentialsException
             | some user => .ok user
         | _ => .error credentialsException) := rfl

theorem gcu_wf_err (t : WireToken) (db : Db) (now : Nat) (err : JoseErr)
    (hd : joseDecode t rsaKeyId issuerId audienceId now = .error err) :
    get_current_user (some (.wf t)) db now = .error credentialsException := by
  rw [gcu_wf, hd]

theorem gcu_wf_ok (t : WireToken) (db : Db) (now : Nat) (payload : JObj)
    (hd : joseDecode t rsaKeyId issuerId audienceId now = .ok payload) :
    get_current_user (some (.wf t)) db now =
      (match jget subKey payload with
       | some (.vs username) =>
         match checkPqc t with
         | .error e => .error e
         | .ok _ =>
           match get_user_by_username db username with
           | none => .error credentialsException
           | some user => .ok user
       | _ => .error credentialsException) := by
  rw [gcu_wf, hd]

theorem change_password_notfound (db : Db) (user_id : Nat) (pd : PasswordChange)
    (hf : db.find? (fun u => u.id == user_id) = none) :
    change_password db user_id pd = (db, .error ⟨404, "User not found"⟩) := by
  unfold change_password
  rw [hf]

theorem change_password_found (db : Db) (user_id : Nat) (pd : PasswordChange) (user : UserRec)
    (hf : db.find? (fun u => u.id == user_id) = some user) :
    change_password db user_id pd =
      (if ¬ verify_password pd.current_password user.hashed_password then
        (db, .error ⟨401, "Current password is incorrect"⟩)
       else if verify_password pd.new_password user.hashed_password then
        (db, .error ⟨400, "New password must be different from current password"⟩)
       else
        (db.map (fun u =>
          if u.id == user_id then
            ⟨u.id, u.username, get_password_hash pd.new_password⟩
          else u),
         .ok ⟨"Password changed successfully", true⟩)) := by
  unfold change_password
  rw [hf]

/-! ### The claims -/

/-- C1: the specification states that the verifier queries the revocation
ledger on every verification and rejects any token whose `jti` is present
there.  The code does neither: `get_current_user` never reads the
`jwt_blacklist` table, and a logout leaves the ledger unchanged (issued
tokens carry no `jti` claim and the logout-side decode runs with the EdDSA
algorithm against RS256 tokens), so a token that has been logged out — the
only revocation path — still verifies successfully afterwards. -/
theorem c1_revoked_token_accepted :
    (logoutEndpoint (some (.wf tokAlice)) none aliceDb [] 50 true).response =
      .ok "Logged out successfully - token has been revoked" ∧
    (logoutEndpoint (some (.wf tokAlice)) none aliceDb [] 50 true).blacklist = [] ∧
    get_current_user (some (.wf tokAlice)) aliceDb 100 = .ok aliceRec := by
  decide

/-- C2 counterexample: the token issued for `alice` at epoch 0 decodes to the
claim set built by `create_access_token`, and that claim set carries no
`jti` (unique_id) member, contradicting the claim that every issued token
carries a freshly generated `unique_id`. -/
theorem c2_no_jti_counterexample :
    jsonLoads tokAlice.payloadSeg = some (tokenClaimSet [(subKey, .vs aliceName)] 0 none) ∧
    jget jtiKey (tokenClaimSet [(subKey, .vs aliceName)] 0 none) = none := by
  decide

/-- C2 (amended): every token produced by the issuer carries the
caller-supplied subject, `iat = now`, `exp = now + ttl` (default 30
minutes), the fixed issuer identifier and the fixed audience identifier —
but no `unique_id` (`jti`) claim is generated or included. -/
theorem c2_issued_claim_set (u : Bytes) (now : Nat) (expires_delta : Option Nat) :
    (create_access_token [(subKey, .vs u)] now expires_delta).payloadSeg =
      serObj (tokenClaimSet [(subKey, .vs u)] now expires_delta) ∧
    jget subKey (tokenClaimSet [(subKey, .vs u)] now expires_delta) = some (.vs u) ∧
    jget iatKey (tokenClaimSet [(subKey, .vs u)] now expires_delta) = some (.vn now) ∧
    jget expKey (tokenClaimSet [(subKey, .vs u)] now expires_delta) =
      some (.vn (now + expires_delta.getD (ACCESS_TOKEN_EXPIRE_MINUTES * 60))) ∧
    jget issKey (tokenClaimSet [(subKey, .vs u)] now expires_delta) = some (.vs issuerId) ∧
    jget audKey (tokenClaimSet [(subKey, .vs u)] now expires_delta) = some (.vs audienceId) ∧
    jget jtiKey (tokenClaimSet [(subKey, .vs u)] now expires_delta) = none := by
  refine ⟨rfl, ?_, ?_, ?_, ?_, ?_, ?_⟩ <;> rw [tokenClaimSet_sub] <;> rfl

/-- C3 counterexample: a request whose cookie token is malformed is rejected
by the route's `require_auth` dependency with a 401; logout does not report
success and the client-side cookie is not cleared, contradicting the claim
that logout reports success for every token, even undecodable ones. -/
theorem c3_malformed_blocks_logout :
    (logoutEndpoint (some .malformed) none aliceDb [] 0 true).response =
      .error credentialsException ∧
    (logoutEndpoint (some .malformed) none aliceDb [] 0 true).cookieCleared = false := by
  decide

/-- C3 (amended): for requests whose cookie token passes the route's
authentication dependency, logout reports success and clears the cookie no
matter how the body's own token decode turns out (it always fails, since it
runs EdDSA against RS256 tokens) and no matter whether the revocation-ledger
write would succeed or raise. -/
theorem c3_logout_best_effort (cookie authHeader : Option JwtInput) (db : Db)
    (bl : Blacklist) (now : Nat) (ledgerWriteOk : Bool) (u : UserRec)
    (h : get_current_user cookie db now = .ok u) :
    (logoutEndpoint cookie authHeader db bl now ledgerWriteOk).cookieCleared = true ∧
    (logoutEndpoint cookie authHeader db bl now ledgerWriteOk).response =
      .ok "Logged out successfully - token has been revoked" := by
  unfold logoutEndpoint
  rw [h]
  exact ⟨rfl, rfl⟩

/-- C3 witness: the concrete authenticated logout of `alice` succeeds. -/
theorem c3_logout_best_effort_witness :
    (logoutEndpoint (some (.wf tokAlice)) none aliceDb [] 100 true).cookieCleared = true ∧
    (logoutEndpoint (some (.wf tokAlice)) none aliceDb [] 100 true).response =
      .ok "Logged out successfully - token has been revoked" :=
  c3_logout_best_effort (some (.wf tokAlice)) none aliceDb [] 100 true aliceRec (by decide)

/-- C4: for every issuer-produced token, the `header.payload` byte string the
verifier reconstructs (decoding the payload segment and re-encoding it under
the basic header) equals the byte string over which the Dilithium3 signature
was computed at issuance, and the emitted header's `pqc` block carries
exactly the signature over those bytes — independent of that secondary
metadata. -/
theorem c4_canonical_roundtrip (u : Bytes) (now : Nat) (expires_delta : Option Nat)
    (hu : '"' ∉ u) :
    reconstructMsg (create_access_token [(subKey, .vs u)] now expires_delta) =
      some (issueSigningInput [(subKey, .vs u)] now expires_delta) ∧
    (create_access_token [(subKey, .vs u)] now expires_delta).header.pqc =
      some ⟨PQC_ALGORITHM,
        some (dilithium_sign (issueSigningInput [(subKey, .vs u)] now expires_delta))⟩ := by
  constructor
  · have h1 : (create_access_token [(subKey, .vs u)] now expires_delta).payloadSeg =
        serObj (tokenClaimSet [(subKey, .vs u)] now expires_delta) := rfl
    rw [reconstructMsg, h1, jsonLoads_serObj _ (wfObj_tokenClaimSet u now expires_delta hu)]
    rfl
  · rfl

/-- C4 witness: the round trip at the concrete token issued for `alice`. -/
theorem c4_canonical_roundtrip_witness :
    reconstructMsg (create_access_token [(subKey, .vs "alice".toList)] 0 none) =
      some (issueSigningInput [(subKey, .vs "alice".toList)] 0 none) ∧
    (create_access_token [(subKey, .vs "alice".toList)] 0 none).header.pqc =
      some ⟨PQC_ALGORITHM,
        some (dilithium_sign (issueSigningInput [(subKey, .vs "alice".toList)] 0 none))⟩ :=
  c4_canonical_roundtrip "alice".toList 0 none (by decide)

/-- C5 counterexample: two verification failures with different causes — a
malformed token and an RS256-valid token missing its `pqc` header block —
produce responses with different `detail` strings, so failure causes are
outwardly distinguishable, contradicting the claim. -/
theorem c5_distinguishable_failures :
    get_current_user (some .malformed) aliceDb 0 = .error credentialsException ∧
    get_current_user (some (.wf tokNoPqc)) aliceDb 100 = .error pqcMissingException ∧
    credentialsException.detail ≠ pqcMissingException.detail := by
  decide

/-- C5 (amended): every verification failure is rejected with HTTP status 401
(with a `WWW-Authenticate: Bearer` header), but the `detail` string is not
uniform: Dilithium3 failures carry two distinct messages of their own while
all other causes share `"Could not validate credentials"`. -/
theorem c5_all_failures_401 (cookie : Option JwtInput) (db : Db) (now : Nat) (e : HTTPEx)
    (h : get_current_user cookie db now = .error e) :
    e.status = 401 ∧
      (e.detail = "Could not validate credentials" ∨
       e.detail = "Post-quantum signature verification failed" ∨
       e.detail = "Token missing post-quantum signature") := by
  rcases gcu_error_cases cookie db now e h with h1 | h1 | h1 <;> subst h1
  · exact ⟨rfl, Or.inl rfl⟩
  · exact ⟨rfl, Or.inr (Or.inl rfl)⟩
  · exact ⟨rfl, Or.inr (Or.inr rfl)⟩

/-- C5 witness: the missing-cookie rejection instantiates the amended claim. -/
theorem c5_all_failures_401_witness :
    credentialsException.status = 401 ∧
      (credentialsException.detail = "Could not validate credentials" ∨
       credentialsException.detail = "Post-quantum signature verification failed" ∨
       credentialsException.detail = "Token missing post-quantum signature") :=
  c5_all_failures_401 none aliceDb 0 credentialsException rfl

/-- C6: the specification states `cleanup(now)` returns the number of removed
entries.  The wrapper does delete the expired entry (expiry 5 has passed at
`now = 10`) but hard-codes its return value to 0, contradicting its own
docstring ("Returns: Number of tokens removed"). -/
theorem c6_cleanup_count_bug :
    cleanup_expired_tokens [⟨"j1".toList, aliceName, 5⟩] 10 = ([], 0) ∧
    cleanup_expired_tokens [] 10 = ([], 0) := by
  decide

/-- C7: in dual-signature mode, a token whose header lacks the `pqc` block,
or whose Dilithium3 signature does not verify over the canonical
reconstructed bytes, is always rejected — the verifier's success branch is
unreachable for such tokens. -/
theorem c7_fail_closed (t : WireToken) (db : Db) (now : Nat)
    (h : t.header.pqc = none ∨ ∃ p, t.header.pqc = some p ∧
      ∀ m s, reconstructMsg t = some m → p.sig = some s → dilithium_verify m s = false) :
    ∃ e, get_current_user (some (.wf t)) db now = .error e := by
  obtain ⟨e0, he0⟩ := checkPqc_fails t h
  cases hd : joseDecode t rsaKeyId issuerId audienceId now with
  | error err => exact ⟨credentialsException, gcu_wf_err t db now err hd⟩
  | ok payload =>
    rw [gcu_wf_ok t db now payload hd]
    cases hs : jget subKey payload with
    | none => exact ⟨credentialsException, rfl⟩
    | some v =>
      cases v with
      | vn k => exact ⟨credentialsException, rfl⟩
      | vs username =>
        rw [he0]
        exact ⟨e0, rfl⟩

/-- C7 witness: the pqc-stripped but otherwise valid token is rejected. -/
theorem c7_fail_closed_witness :
    ∃ e, get_current_user (some (.wf tokNoPqc)) aliceDb 100 = .error e :=
  c7_fail_closed tokNoPqc aliceDb 100 (Or.inl rfl)

/-- C8 counterexample: `get_rsa_private_key` is one of the module-level
operations `keys.py` exposes, and it returns the raw RSA private key PEM —
bytes distinct from every public key the pair holds — contradicting the
claim that no exposed operation returns private key bytes. -/
theorem c8_private_key_returned :
    get_rsa_private_key ∈ exposedKeyAccessors ∧
    get_rsa_private_key demoKeyPair = demoKeyPair.rsa_private_key_pem ∧
    demoKeyPair.rsa_private_key_pem ≠ demoKeyPair.rsa_public_key_pem ∧
    demoKeyPair.rsa_private_key_pem ≠ demoKeyPair.dilithium_public_key :=
  ⟨List.Mem.head _, rfl, by decide, by decide⟩

/-- C8 (amended): the key-management component exposes the RSA private key in
PEM form to callers outside it through the module-level
`get_rsa_private_key` (used by `dependencies/auth.py` at issuance and even
during verification), alongside the two public-key accessors; only the
Dilithium3 private key is confined to the signing and verification
wrappers. -/
theorem c8_accessor_surface (kp : HybridKeyPair) :
    get_rsa_private_key kp = kp.rsa_private_key_pem ∧
    get_rsa_public_key kp = kp.rsa_public_key_pem ∧
    get_dilithium_public_key kp = kp.dilithium_public_key :=
  ⟨rfl, rfl, rfl⟩

/-- C9: `change_password` with a new password equal to the current one is
rejected without mutating the table; with a wrong current password it is
rejected 401 (InvalidCredentials) without mutating the table; and with a
correct current password and a distinct new password it succeeds, after
which the updated row's hash verifies the new password and no longer
verifies the old one. -/
theorem get_password_hash_inj (a b : Bytes)
    (h : get_password_hash a = get_password_hash b) : a = b := by
  simpa [get_password_hash] using h

theorem c9_change_password (db : Db) (user_id : Nat) (pd : PasswordChange) :
    (pd.new_password = pd.current_password →
      (change_password db user_id pd).1 = db ∧
      ∃ e, (change_password db user_id pd).2 = .error e) ∧
    (∀ user, db.find? (fun u => u.id == user_id) = some user →
      verify_password pd.current_password user.hashed_password = false →
      (change_password db user_id pd).1 = db ∧
      (change_password db user_id pd).2 = .error ⟨401, "Current password is incorrect"⟩) ∧
    (∀ user, db.find? (fun u => u.id == user_id) = some user →
      verify_password pd.current_password user.hashed_password = true →
      pd.new_password ≠ pd.current_password →
      ((change_password db user_id pd).2 = .ok ⟨"Password changed successfully", true⟩ ∧
       ∀ u2 ∈ (change_password db user_id pd).1, u2.id = user_id →
         (verify_password pd.new_password u2.hashed_password = true ∧
          verify_password pd.current_password u2.hashed_password = false))) := by
  refine ⟨?_, ?_, ?_⟩
  · intro hEq
    cases hf : db.find? (fun u => u.id == user_id) with
    | none =>
      rw [change_password_notfound db user_id pd hf]
      exact ⟨rfl, ⟨404, "User not found"⟩, rfl⟩
    | some user =>
      rw [change_password_found db user_id pd user hf]
      split
      · exact ⟨rfl, ⟨401, "Current password is incorrect"⟩, rfl⟩
      · next hcur =>
        split
        · exact ⟨rfl, ⟨400, "New password must be different from current password"⟩, rfl⟩
        · next hnew2 =>
          exact absurd (by rw [hEq]; exact not_not.mp hcur :
            verify_password pd.new_password user.hashed_password = true) hnew2
  · intro user hf hv
    rw [change_password_found db user_id pd user hf]
    split
    · exact ⟨rfl, rfl⟩
    · next hcur => exact absurd (by simp [hv]) hcur
  · intro user hf hv hne
    have hstored : user.hashed_password = get_password_hash pd.current_password :=
      eq_of_beq hv
    have hvnew : verify_password pd.new_password user.hashed_password = false := by
      unfold verify_password
      rw [hstored]
      by_contra hcon
      rw [Bool.not_eq_false] at hcon
      exact hne (get_password_hash_inj _ _ (eq_of_beq hcon)).symm
    rw [change_password_found db user_id pd user hf]
    split
    · next hcond => exact absurd hv hcond
    · split
      · next hcond2 => simp [hvnew] at hcond2
      · refine ⟨rfl, ?_⟩
        intro u2 hu2 hid
        simp only [List.mem_map] at hu2
        obtain ⟨u0, hu0, hfu⟩ := hu2
        by_cases hcase : u0.id == user_id
        · rw [if_pos hcase] at hfu
          subst hfu
          constructor
          · simp [verify_password]
          · simp only [verify_password, get_password_hash, beq_eq_false_iff_ne, ne_eq,
              List.cons.injEq, true_and]
            intro hc
            exact hne hc
        · rw [if_neg hcase] at hfu
          subst hfu
          exact absurd (beq_iff_eq.mpr hid) hcase

/-- C9 witness: the three branches at concrete inputs — same-password
rejection, wrong-current rejection, and a successful change for `alice`. -/
theorem c9_change_password_witness :
    ((change_password aliceDb 1 ⟨alicePw, alicePw⟩).1 = aliceDb ∧
      ∃ e, (change_password aliceDb 1 ⟨alicePw, alicePw⟩).2 = .error e) ∧
    ((change_password aliceDb 1 ⟨"wrongpw".toList, "newpw123".toList⟩).1 = aliceDb ∧
      (change_password aliceDb 1 ⟨"wrongpw".toList, "newpw123".toList⟩).2 =
        .error ⟨401, "Current password is incorrect"⟩) ∧
    ((change_password aliceDb 1 ⟨alicePw, "newpw123".toList⟩).2 =
        .ok ⟨"Password changed successfully", true⟩ ∧
     ∀ u2 ∈ (change_password aliceDb 1 ⟨alicePw, "newpw123".toList⟩).1, u2.id = 1 →
       (verify_password "newpw123".toList u2.hashed_password = true ∧
        verify_password alicePw u2.hashed_password = false)) :=
  ⟨(c9_change_password aliceDb 1 ⟨alicePw, alicePw⟩).1 rfl,
   (c9_change_password aliceDb 1 ⟨"wrongpw".toList, "newpw123".toList⟩).2.1 aliceRec
     (by decide) (by decide),
   (c9_change_password aliceDb 1 ⟨alicePw, "newpw123".toList⟩).2.2 aliceRec
     (by decide) (by decide) (by decide)⟩

/-- C10: a registration request whose cookie does not carry a token accepted
by the authentication dependency is rejected with that dependency's 401 and
the users table is unchanged; the only bootstrap path is startup
initialization, which creates the default `admin` user exactly when the
users table is empty and leaves a non-empty table untouched. -/
theorem c10_register_requires_auth :
    (∀ (cookie : Option JwtInput) (db : Db) (now : Nat) (user_data : UserCreate) (e : HTTPEx),
      get_current_user cookie db now = .error e →
      registerEndpoint cookie db now user_data = (db, .error e)) ∧
    (∀ (db : Db) (generated_password : Bytes), db ≠ [] →
      initialize_default_user db generated_password = db) ∧
    (∀ generated_password : Bytes,
      initialize_default_user [] generated_password =
        [⟨1, DEFAULT_USERNAME, get_password_hash generated_password⟩]) := by
  refine ⟨?_, ?_, ?_⟩
  · intro cookie db now user_data e h
    unfold registerEndpoint
    rw [h]
  · intro db generated_password hne
    cases db with
    | nil => exact absurd rfl hne
    | cons u rest => rfl
  · intro generated_password
    rfl

/-- C10 witness: an unauthenticated registration attempt against `alice`'s
table is rejected and inserts nothing; startup initialization leaves the
non-empty table alone and seeds an empty one with `admin`. -/
theorem c10_register_requires_auth_witness :
    registerEndpoint none aliceDb 0 ⟨"bob".toList, "bobpw1234".toList⟩ =
      (aliceDb, .error credentialsException) ∧
    initialize_default_user aliceDb "generated".toList = aliceDb ∧
    initialize_default_user [] "generated".toList =
      [⟨1, DEFAULT_USERNAME, get_password_hash "generated".toList⟩] :=
  ⟨c10_register_requires_auth.1 none aliceDb 0 ⟨"bob".toList, "bobpw1234".toList⟩
      credentialsException rfl,
   c10_register_requires_auth.2.1 aliceDb "generated".toList (by decide),
   c10_register_requires_auth.2.2 "generated".toList⟩
